import Mathlib

/-!
Verification of the orchestration/validation core of the aws-rag-agent
repository (a two-stage Planner → Synthesizer RAG pipeline built on a
sequential agent framework).

The shallow embedding below translates, from the source:
  - the Planner output schema `PlannerPlan`
    (src/aws-rag-agent/src/schemas/planner_schema.py),
  - the validation utility `safe_validate_plan`
    (src/aws-rag-agent/src/agents/planner.py, lines 76-90),
  - the stage constructors `initialize_planner_agent` and
    `initialize_synthesizer_agent` (environment-key gate and the agent
    configuration records, including each stage's `output_key`),
  - `setup_orchestrator` and the final observability block of
    `run_agentic_rag` (src/aws-rag-agent/src/main.py).
Parts executed by external collaborators (the sequential-agent runner and
the LLM backend) are modelled from the specification and are marked as such
in their doc comments.
-/

namespace AwsRag

/-- JSON-like values, the shape of LLM output after JSON parsing: the input
type of `safe_validate_plan` (a Python dict of arbitrary parsed-JSON
values) and of the Session State entries. -/
inductive Value where
  | str (s : String)
  | num (n : Int)
  | boolean (b : Bool)
  | null
  | list (xs : List Value)
  | obj (fields : List (String × Value))
deriving Repr

/-- A string-keyed mapping (Python dict) of JSON-like values. -/
def ValueMap := List (String × Value)

/-- Dict lookup: the value stored under `key`, if any (Python `dict.get`). -/
def lookupField : ValueMap → String → Option Value
  | [], _ => none
  | (k, v) :: rest, key => if k = key then some v else lookupField rest key

/-- The Planner output schema `PlannerPlan`
(src/aws-rag-agent/src/schemas/planner_schema.py): a `query_type` string
field and a `sub_queries` list-of-strings field, both required, with no
further constraint. -/
structure PlannerPlan where
  query_type : String
  sub_queries : List String
deriving Repr, DecidableEq

/-- Pydantic validation of a parsed-JSON value against a `str` field:
only a JSON string conforms. -/
def validateStr : Value → Option String
  | .str s => some s
  | _ => none

/-- Pydantic validation of each element of a JSON array against `str`,
failing if any element is not a string. -/
def validateStrItems : List Value → Option (List String)
  | [] => some []
  | v :: rest =>
    match validateStr v, validateStrItems rest with
    | some s, some ss => some (s :: ss)
    | _, _ => none

/-- Pydantic validation of a parsed-JSON value against a `List[str]` field:
only a JSON array whose elements are all strings conforms. -/
def validateStrList : Value → Option (List String)
  | .list xs => validateStrItems xs
  | _ => none

/-- The validation utility `safe_validate_plan`
(src/aws-rag-agent/src/agents/planner.py, lines 76-90): constructs a
`PlannerPlan` from the raw mapping via the pydantic schema, returning the
plan on success and the sentinel `none` on any `ValidationError` (missing
field or type mismatch); extra keys are ignored by the schema. All
exceptions are caught in the source, so the embedding is a total function
into `Option`. -/
def safe_validate_plan (raw_data : ValueMap) : Option PlannerPlan :=
  match lookupField raw_data "query_type", lookupField raw_data "sub_queries" with
  | some qt, some sq =>
    match validateStr qt, validateStrList sq with
    | some q, some s => some { query_type := q, sub_queries := s }
    | _, _ => none
  | _, _ => none

/-- Field mapping of a `PlannerPlan` (Python `model_dump`): the dict a
valid plan round-trips through. -/
def planToMap (p : PlannerPlan) : ValueMap :=
  [("query_type", Value.str p.query_type),
   ("sub_queries", Value.list (p.sub_queries.map Value.str))]

/-- Configuration of one agent stage as constructed in the source: the
fields of the `Agent(...)` constructor calls that the core contract depends
on (stage name, backing model id, the session-state key the stage's output
is written under, and the tool names it is given). -/
structure AgentConfig where
  name : String
  model : String
  output_key : String
  tools : List String
deriving Repr, DecidableEq

/-- The Planner stage configuration
(src/aws-rag-agent/src/agents/planner.py, lines 43-66): no tools, output
written under the key "planner_plan". -/
def plannerAgentConfig : AgentConfig :=
  { name := "planner_agent_v1"
    model := "groq/llama-3.3-70b-versatile"
    output_key := "planner_plan"
    tools := [] }

/-- The Synthesizer stage configuration
(src/aws-rag-agent/src/agents/synthesizer.py, lines 40-71): the retriever
tool attached, output written under the key "final_response". -/
def synthesizerAgentConfig : AgentConfig :=
  { name := "synthesizer_agent_v1"
    model := "groq/llama-3.3-70b-versatile"
    output_key := "final_response"
    tools := ["retriever_tool"] }

/-- A process environment: `os.getenv` over a finite table of variables. -/
def getenv : List (String × String) → String → Option String
  | [], _ => none
  | (k, v) :: rest, key => if k = key then some v else getenv rest key

/-- Python truthiness of `os.getenv`: `not api_key` is true exactly when the
variable is absent or set to the empty string. -/
def truthy : Option String → Bool
  | none => false
  | some s => !s.isEmpty

/-- The stage constructor `initialize_planner_agent`
(src/aws-rag-agent/src/agents/planner.py, lines 26-73): reads GROQ_API_KEY
from the environment; if it is falsy the constructor raises EnvironmentError
(modelled as `Except.error` with the source's message), otherwise it returns
the Planner agent configuration. -/
def initialize_planner_agent (env : List (String × String)) :
    Except String AgentConfig :=
  let api_key := getenv env "GROQ_API_KEY"
  if truthy api_key then Except.ok plannerAgentConfig
  else Except.error "GROQ_API_KEY not found. Ensure your .env file is configured."

/-- The stage constructor `initialize_synthesizer_agent`
(src/aws-rag-agent/src/agents/synthesizer.py, lines 23-78): same
GROQ_API_KEY gate, raising EnvironmentError when the key is falsy, otherwise
returning the Synthesizer agent configuration. -/
def initialize_synthesizer_agent (env : List (String × String)) :
    Except String AgentConfig :=
  let api_key := getenv env "GROQ_API_KEY"
  if truthy api_key then Except.ok synthesizerAgentConfig
  else Except.error "GROQ_API_KEY not found in environment."

/-- The sequential pipeline configuration returned by `setup_orchestrator`. -/
structure SequentialAgentConfig where
  name : String
  sub_agents : List AgentConfig
deriving Repr, DecidableEq

/-- `setup_orchestrator` (src/aws-rag-agent/src/main.py, lines 32-41):
constructs both stages (each constructor may raise) and chains them, Planner
first, into one sequential agent. Construction happens before any query is
processed: `run_agentic_rag` calls it before starting the runner. -/
def setup_orchestrator (env : List (String × String)) :
    Except String SequentialAgentConfig := do
  let planner ← initialize_planner_agent env
  let synthesizer ← initialize_synthesizer_agent env
  pure { name := "AWSRagRootAgent", sub_agents := [planner, synthesizer] }

/-- Observable events of one pipeline run, in the order they occur. -/
inductive Event where
  | plannerStart
  | planValidated
  | validationFailed
  | synthesizerStart
  | retrievalCall (q : String)
  | synthesizerDone
deriving Repr, DecidableEq

/-- Modelled from the spec: the sequential execution loop of the agent
framework (the `SequentialAgent` runner behind `setup_orchestrator`) is
library code outside src/. Per spec section 4.4, the Orchestrator runs
Planner to completion, validates its structured output, transitions to
Error on validation failure without invoking the Synthesizer, and only
after validation success starts the Synthesizer, which then issues one
Retrieval Tool call per sub-query; there is no concurrent or speculative
execution between the stages. The trace of one run, as a function of the
Planner's raw output. -/
def runPipeline (plannerOutput : ValueMap) : List Event :=
  Event.plannerStart ::
    match safe_validate_plan plannerOutput with
    | none => [Event.validationFailed]
    | some plan =>
      Event.planValidated :: Event.synthesizerStart ::
        (plan.sub_queries.map Event.retrievalCall ++ [Event.synthesizerDone])

/-- The fixed refusal sentence: the literal in the Synthesizer's grounding
instruction (src/aws-rag-agent/src/agents/synthesizer.py, line 66). -/
def refusal_sentence : String :=
  "This information is not available in the provided AWS RAG guide"

/-- Modelled from the spec: the Synthesizer stage body is executed by the
external LLM backend under the grounding instruction of
`initialize_synthesizer_agent`; that execution is not code under src/. Per
spec section 4.3, the stage retrieves content for exactly the plan's
sub-queries, emits the fixed refusal sentence when the tool returns no
usable content, and otherwise composes an answer from the retrieved content
only (`compose` abstracts that grounded composition). -/
def synthesize (retrieve : String → String) (compose : List String → String)
    (plan : PlannerPlan) : String :=
  let retrieved := plan.sub_queries.map retrieve
  if retrieved.all (fun c => c = "") then refusal_sentence
  else compose retrieved

/-- Session State update: store `v` under `key`, replacing any existing
entry (Python dict item assignment). -/
def setKey : ValueMap → String → Value → ValueMap
  | [], key, v => [(key, v)]
  | (k, w) :: rest, key, v =>
    if k = key then (k, v) :: rest else (k, w) :: setKey rest key v

/-- Modelled from the spec: the agent framework writes a finished stage's
output text into Session State under that stage's `output_key` (runner
library code outside src/); the keys themselves come from the source's
agent configurations. Running the Synthesizer stage over a session state. -/
def run_stage_output (st : ValueMap) (agent : AgentConfig) (text : String) :
    ValueMap :=
  setKey st agent.output_key (Value.str text)

/-- What the CLI prints at the end of a run: either the observability block
(planner trace and final answer) or the state-retrieval error log. -/
inductive CliOutput where
  | answer (plannerResult : Option Value) (finalResponse : Value)
  | stateError
deriving Repr

/-- The final observability block of `run_agentic_rag`
(src/aws-rag-agent/src/main.py, lines 95-109): if the fetched session
exists and its state dict is truthy (non-empty), print the Planner trace
from the key "planner_plan" and the final answer from the key
"final_response" with the default "No response generated." when the key is
absent; otherwise log "Failed to retrieve final session state." and print
neither. -/
def display_final_output : Option ValueMap → CliOutput
  | none => CliOutput.stateError
  | some st =>
    if st.isEmpty then CliOutput.stateError
    else
      CliOutput.answer (lookupField st "planner_plan")
        ((lookupField st "final_response").getD
          (Value.str "No response generated."))

/-- A concrete valid Planner output mapping, used as the witness input. -/
def examplePlannerOutput : ValueMap :=
  [("query_type", Value.str "definition"),
   ("sub_queries", Value.list [Value.str "what is Amazon S3",
                               Value.str "Amazon S3 use cases"])]

/-- A concrete session state holding only the Planner's entry, used as the
witness input for the CLI default-answer behaviour. -/
def exampleStateNoAnswer : ValueMap :=
  [("planner_plan", Value.str "plan-trace")]

theorem validateStrItems_map_str (qs : List String) :
    validateStrItems (qs.map Value.str) = some qs := by
  induction qs with
  | nil => rfl
  | cons q rest ih => simp [validateStrItems, validateStr, ih]

theorem validateStrItems_isSome_iff (xs : List Value) :
    (validateStrItems xs).isSome ↔ ∀ v ∈ xs, ∃ s, v = Value.str s := by
  induction xs with
  | nil => simp [validateStrItems]
  | cons v rest ih =>
    cases v with
    | str s =>
      cases h : validateStrItems rest with
      | none =>
        simp only [validateStrItems, validateStr, h]
        simp only [h, Option.isSome_none, Bool.false_eq_true, false_iff] at ih
        simp only [Option.isSome_none, Bool.false_eq_true, false_iff]
        intro hall
        exact ih (fun w hw => hall w (List.mem_cons_of_mem _ hw))
      | some ss =>
        simp only [validateStrItems, validateStr, h]
        simp only [h, Option.isSome_some, true_iff] at ih
        simp only [Option.isSome_some, true_iff]
        intro w hw
        rcases List.mem_cons.mp hw with hwv | hwr
        · exact ⟨s, hwv⟩
        · exact ih w hwr
    | num n =>
      simp [validateStrItems, validateStr]
    | boolean b =>
      simp [validateStrItems, validateStr]
    | null =>
      simp [validateStrItems, validateStr]
    | list ys =>
      simp [validateStrItems, validateStr]
    | obj fs =>
      simp [validateStrItems, validateStr]

/-- C2: the Schema Validator returns a Plan if and only if the raw mapping
contains a `query_type` field holding a string and a `sub_queries` field
holding a sequence of strings; any other mapping is a validation failure.
Since the condition on an empty sequence holds vacuously, an empty
`sub_queries` list is accepted as structurally valid. -/
theorem safe_validate_plan_isSome_iff (raw : ValueMap) :
    (safe_validate_plan raw).isSome = true ↔
      ((∃ s, lookupField raw "query_type" = some (Value.str s)) ∧
       (∃ xs, lookupField raw "sub_queries" = some (Value.list xs) ∧
         ∀ v ∈ xs, ∃ s, v = Value.str s)) := by
  unfold safe_validate_plan
  cases hq : lookupField raw "query_type" with
  | none => simp
  | some qt =>
    cases hs : lookupField raw "sub_queries" with
    | none => simp
    | some sq =>
      cases qt with
      | str s =>
        cases sq with
        | list xs =>
          cases hitems : validateStrItems xs with
          | none =>
            have hiff := validateStrItems_isSome_iff xs
            rw [hitems] at hiff
            simp only [Option.isSome_none, Bool.false_eq_true, false_iff] at hiff
            simp [validateStr, validateStrList, hitems, hiff]
          | some ss =>
            have hiff := validateStrItems_isSome_iff xs
            rw [hitems] at hiff
            simp only [Option.isSome_some, true_iff] at hiff
            simp only [validateStr, validateStrList, hitems]
            simp
            exact hiff
        | str s2 => simp [validateStr, validateStrList]
        | num n => simp [validateStr, validateStrList]
        | boolean b => simp [validateStr, validateStrList]
        | null => simp [validateStr, validateStrList]
        | obj fs => simp [validateStr, validateStrList]
      | num n => simp [validateStr]
      | boolean b => simp [validateStr]
      | null => simp [validateStr]
      | list ys => simp [validateStr]
      | obj fs => simp [validateStr]

/-- C3: the Schema Validator is a total function — the source catches
every exception — and on every raw mapping missing `query_type` or
`sub_queries` it returns the sentinel `none` the caller can branch on,
never raising. -/
theorem safe_validate_plan_missing_field_none (raw : ValueMap)
    (h : lookupField raw "query_type" = none ∨
         lookupField raw "sub_queries" = none) :
    safe_validate_plan raw = none := by
  unfold safe_validate_plan
  rcases h with h | h
  · rw [h]
  · rw [h]
    cases lookupField raw "query_type" <;> rfl

/-- Witness for C3: the empty mapping misses both fields and validation
returns the sentinel. -/
theorem safe_validate_plan_missing_field_none_witness :
    safe_validate_plan [] = none :=
  safe_validate_plan_missing_field_none [] (Or.inl rfl)

/-- Counterexample to C4 as stated: the Schema Validator accepts a mapping
whose `query_type` is "comparison" (not the fallback "general") and whose
`sub_queries` is empty — so a validated Plan with a non-general category
can have a `sub_queries` length outside {2, 3}, and even an empty one. -/
theorem validated_non_general_plan_empty_sub_queries :
    safe_validate_plan
        [("query_type", Value.str "comparison"),
         ("sub_queries", Value.list [])] =
      some { query_type := "comparison", sub_queries := [] } ∧
    "comparison" ≠ "general" ∧
    ¬(([] : List String).length = 2 ∨ ([] : List String).length = 3) :=
  ⟨rfl, by decide, by decide⟩

/-- C4 amended: the schema places no length constraint on `sub_queries` —
for a non-general `query_type` the Schema Validator accepts a list of any
length (the 2–3 bound is only requested in the Planner's prompt
instruction, never enforced by validation). -/
theorem safe_validate_plan_any_length (qs : List String) :
    safe_validate_plan
        [("query_type", Value.str "comparison"),
         ("sub_queries", Value.list (qs.map Value.str))] =
      some { query_type := "comparison", sub_queries := qs } := by
  unfold safe_validate_plan
  simp [lookupField, validateStr, validateStrList, validateStrItems_map_str qs]

/-- Counterexample to C5 as stated: the Schema Validator accepts the
`query_type` "banana", a string outside the closed category set
{comparison, definition, recommendation, uses, general}. -/
theorem validated_plan_query_type_outside_closed_set :
    safe_validate_plan
        [("query_type", Value.str "banana"),
         ("sub_queries", Value.list [Value.str "a", Value.str "b"])] =
      some { query_type := "banana", sub_queries := ["a", "b"] } ∧
    ¬("banana" = "comparison" ∨ "banana" = "definition" ∨
      "banana" = "recommendation" ∨ "banana" = "uses" ∨
      "banana" = "general") :=
  ⟨rfl, by decide⟩

/-- C5 amended: the schema constrains `query_type` only to be a string —
the Schema Validator accepts every string value, and the closed category
set {comparison, definition, recommendation, uses, general} is enforced
only by the Planner's prompt instruction, not by validation. -/
theorem safe_validate_plan_any_query_type (qt : String) :
    safe_validate_plan
        [("query_type", Value.str qt),
         ("sub_queries", Value.list [Value.str "q1", Value.str "q2"])] =
      some { query_type := qt, sub_queries := ["q1", "q2"] } := by
  unfold safe_validate_plan
  simp [lookupField, validateStr, validateStrList, validateStrItems]

/-- C6: validation is idempotent — feeding the field mapping of an
already-valid Plan back through the Schema Validator succeeds and returns
a Plan equal to the original, so valid Plans round-trip unchanged. -/
theorem safe_validate_plan_roundtrip (p : PlannerPlan) :
    safe_validate_plan (planToMap p) = some p := by
  unfold safe_validate_plan planToMap
  simp [lookupField, validateStr, validateStrList,
    validateStrItems_map_str p.sub_queries]

/-- C1: strict sequencing — in every pipeline run, the Synthesizer begins
and the first Retrieval Tool call occurs strictly after Plan validation
success: any `synthesizerStart` or `retrievalCall` event in the run trace
is preceded (at a strictly smaller index) by the `planValidated` event, and
on validation failure no such event occurs at all. -/
theorem retrieval_strictly_after_validation (plannerOutput : ValueMap)
    (i : Nat) (q : String)
    (h : (runPipeline plannerOutput).get? i = some (Event.retrievalCall q) ∨
         (runPipeline plannerOutput).get? i = some Event.synthesizerStart) :
    ∃ j, j < i ∧
      (runPipeline plannerOutput).get? j = some Event.planValidated := by
  unfold runPipeline at h ⊢
  cases hv : safe_validate_plan plannerOutput with
  | none =>
    rw [hv] at h
    match i, h with
    | 0, h => rcases h with h | h <;> simp at h
    | 1, h => rcases h with h | h <;> simp at h
    | n + 2, h => rcases h with h | h <;> simp at h
  | some plan =>
    rw [hv] at h
    match i, h with
    | 0, h => rcases h with h | h <;> simp at h
    | 1, h => rcases h with h | h <;> simp at h
    | n + 2, h => exact ⟨1, by omega, rfl⟩

/-- Witness for C1: on a concrete valid Planner output, the first retrieval
call sits at index 3 of the trace and validation success at an earlier
index. -/
theorem retrieval_strictly_after_validation_witness :
    (runPipeline examplePlannerOutput).get? 3 =
        some (Event.retrievalCall "what is Amazon S3") ∧
    ∃ j, j < 3 ∧
      (runPipeline examplePlannerOutput).get? j = some Event.planValidated :=
  ⟨rfl, retrieval_strictly_after_validation examplePlannerOutput 3
    "what is Amazon S3" (Or.inl rfl)⟩

/-- C7: when GROQ_API_KEY is absent from the environment, both stage
constructors raise (return the source's EnvironmentError message), and so
does `setup_orchestrator`, which runs them before any query is processed —
credential absence is fatal at stage-construction time. -/
theorem missing_api_key_fatal (env : List (String × String))
    (h : getenv env "GROQ_API_KEY" = none) :
    initialize_planner_agent env =
        Except.error
          "GROQ_API_KEY not found. Ensure your .env file is configured." ∧
    initialize_synthesizer_agent env =
        Except.error "GROQ_API_KEY not found in environment." ∧
    setup_orchestrator env =
        Except.error
          "GROQ_API_KEY not found. Ensure your .env file is configured." := by
  have hp : initialize_planner_agent env =
      Except.error
        "GROQ_API_KEY not found. Ensure your .env file is configured." := by
    unfold initialize_planner_agent
    rw [h]
    rfl
  have hs : initialize_synthesizer_agent env =
      Except.error "GROQ_API_KEY not found in environment." := by
    unfold initialize_synthesizer_agent
    rw [h]
    rfl
  refine ⟨hp, hs, ?_⟩
  unfold setup_orchestrator
  rw [hp]
  rfl

/-- Witness for C7: the empty environment has no GROQ_API_KEY and both
constructors and the orchestrator setup fail there. -/
theorem missing_api_key_fatal_witness :
    getenv [] "GROQ_API_KEY" = none ∧
    initialize_planner_agent [] =
        Except.error
          "GROQ_API_KEY not found. Ensure your .env file is configured." ∧
    initialize_synthesizer_agent [] =
        Except.error "GROQ_API_KEY not found in environment." ∧
    setup_orchestrator [] =
        Except.error
          "GROQ_API_KEY not found. Ensure your .env file is configured." :=
  ⟨rfl, missing_api_key_fatal [] rfl⟩

/-- C8: when the Retrieval Tool returns empty content for every sub-query
of the plan, the Synthesizer's answer is, verbatim, the fixed refusal
sentence — never a composed (fabricated) answer. -/
theorem empty_retrieval_yields_refusal (retrieve : String → String)
    (compose : List String → String) (plan : PlannerPlan)
    (h : ∀ q ∈ plan.sub_queries, retrieve q = "") :
    synthesize retrieve compose plan = refusal_sentence := by
  unfold synthesize
  have hall : (plan.sub_queries.map retrieve).all (fun c => c = "") = true := by
    rw [List.all_eq_true]
    intro c hc
    rcases List.mem_map.mp hc with ⟨q, hq, rfl⟩
    simp [h q hq]
  simp [hall]

/-- Witness for C8: a concrete plan whose two sub-queries both retrieve
empty content makes the Synthesizer output the refusal sentence, even
though the composition function would have produced a different answer. -/
theorem empty_retrieval_yields_refusal_witness :
    (∀ q ∈ (PlannerPlan.mk "uses" ["ec2 uses", "ec2 pricing"]).sub_queries,
        (fun _ => "") q = "") ∧
    synthesize (fun _ => "") (fun _ => "a fabricated answer")
        (PlannerPlan.mk "uses" ["ec2 uses", "ec2 pricing"]) =
      refusal_sentence :=
  ⟨fun _ _ => rfl,
   empty_retrieval_yields_refusal (fun _ => "") (fun _ => "a fabricated answer")
     (PlannerPlan.mk "uses" ["ec2 uses", "ec2 pricing"]) (fun _ _ => rfl)⟩

theorem lookupField_setKey_ne (st : ValueMap) (key k : String) (v : Value)
    (h : k ≠ key) : lookupField (setKey st key v) k = lookupField st k := by
  induction st with
  | nil =>
    have : ¬(key = k) := fun hh => h hh.symm
    simp [setKey, lookupField, this]
  | cons p rest ih =>
    obtain ⟨k2, w⟩ := p
    by_cases hk : k2 = key
    · subst hk
      have : ¬(k2 = k) := fun hh => h hh.symm
      simp [setKey, lookupField, this]
    · by_cases hkk : k2 = k
      · subst hkk
        simp [setKey, lookupField, hk]
      · simp [setKey, lookupField, hk, hkk, ih]

/-- C9: frame property of the Synthesizer stage — writing its answer into
Session State under its own output key "final_response" leaves every other
key unchanged; in particular the Plan stored under the Planner's key
"planner_plan" is untouched. -/
theorem synthesizer_write_frame (st : ValueMap) (answer : String) :
    (∀ k, k ≠ "final_response" →
      lookupField (run_stage_output st synthesizerAgentConfig answer) k =
        lookupField st k) ∧
    lookupField (run_stage_output st synthesizerAgentConfig answer)
        "planner_plan" =
      lookupField st "planner_plan" := by
  constructor
  · intro k hk
    exact lookupField_setKey_ne st _ k _ hk
  · exact lookupField_setKey_ne st _ _ _ (by decide)

/-- Counterexample to C10 as stated: a retrievable session with an empty
state dict lacks the "final_response" key, yet the CLI does not print the
default answer (or the planner trace) — the Python truthiness guard
`if final_session and final_session.state:` sends it to the error branch. -/
theorem empty_state_not_default_answer :
    lookupField [] "final_response" = none ∧
    display_final_output (some []) ≠
      CliOutput.answer (lookupField [] "planner_plan")
        (Value.str "No response generated.") := by
  refine ⟨rfl, ?_⟩
  intro h
  simp [display_final_output] at h

/-- C10 amended: for every run ending with a retrievable session whose
state is non-empty and lacks the "final_response" key, the CLI prints the
literal default "No response generated." in place of an answer while the
Planner's trace entry is still printed from the "planner_plan" key; when
the state is empty (Python-falsy) the CLI instead logs a state-retrieval
error and prints neither. -/
theorem nonempty_state_default_answer (st : ValueMap)
    (h1 : st ≠ []) (h2 : lookupField st "final_response" = none) :
    display_final_output (some st) =
      CliOutput.answer (lookupField st "planner_plan")
        (Value.str "No response generated.") := by
  have he : st.isEmpty = false := by
    cases st with
    | nil => exact absurd rfl h1
    | cons a l => rfl
  simp [display_final_output, he, h2]

/-- Witness for C10: a state holding only the Planner's entry displays the
planner trace together with the default answer text. -/
theorem nonempty_state_default_answer_witness :
    exampleStateNoAnswer ≠ [] ∧
    lookupField exampleStateNoAnswer "final_response" = none ∧
    display_final_output (some exampleStateNoAnswer) =
      CliOutput.answer (lookupField exampleStateNoAnswer "planner_plan")
        (Value.str "No response generated.") :=
  ⟨by simp [exampleStateNoAnswer], rfl,
   nonempty_state_default_answer exampleStateNoAnswer
     (by simp [exampleStateNoAnswer]) rfl⟩

end AwsRag
